import Mathlib

/-!
Verification of the aligned-vs-unaligned AVX2 summation benchmark
(`src/main.cpp`).

Machine doubles are modelled as exact rationals `ℚ`: the embedding captures
which stored values each kernel combines and in which order; IEEE rounding
itself is not modelled, so every equality proved below is a statement of the
idealised (exact) arithmetic the spec's tolerance clause bounds.

The memory of a `std::vector<double>` buffer is modelled as a function
`mem : ℕ → ℚ`, where `mem a` is the double value obtained by an 8-byte load
at byte address `a`, taken relative to `container.data()`.  The stored
elements of the vector live at the addresses `8 * i`; a load at an address
that is not a multiple of 8 reinterprets bytes of two neighbouring elements,
and is therefore left opaque (just an unconstrained value of `mem`).
-/

namespace AVUMA

/-- Number of doubles per `__m256d` SIMD register (4 × 64-bit lanes). -/
def vectorWidth : ℕ := 4

/-- Width of a `__m256d` register in bytes. -/
def vectorWidthBytes : ℕ := 8 * vectorWidth

/-- Alignment (in bytes) requested by `AlignedAllocator::allocate`:
`_mm_malloc(n * sizeof(T), 8)` at src/main.cpp:41. -/
def alignedAllocAlignment : ℕ := 8

/-- Alignment (in bytes) requested by `MisalignedAllocator::allocate`:
`_mm_malloc(n * sizeof(T) + 8, 8)` at src/main.cpp:62. -/
def misalignedAllocAlignment : ℕ := 8

/-- Total bytes allocated by `MisalignedAllocator::allocate` for `size`
elements: `size * sizeof(double) + 8` (src/main.cpp:62). -/
def allocatedBytes (size : ℕ) : ℕ := 8 * size + 8

/-- One `__m256d` value: four double lanes, in memory order. -/
structure Vec4 where
  l0 : ℚ
  l1 : ℚ
  l2 : ℚ
  l3 : ℚ

/-- `_mm256_setzero_pd()`. -/
def vzero : Vec4 := ⟨0, 0, 0, 0⟩

/-- `_mm256_add_pd`: lane-wise addition. -/
def vadd (a b : Vec4) : Vec4 := ⟨a.l0 + b.l0, a.l1 + b.l1, a.l2 + b.l2, a.l3 + b.l3⟩

/-- A 4-lane vector load (`_mm256_load_pd` / `_mm256_loadu_pd`) of the four
doubles starting at byte address `addr`.  Both intrinsics read the same
values; they differ only in the alignment they require of `addr`. -/
def vload (mem : ℕ → ℚ) (addr : ℕ) : Vec4 :=
  ⟨mem addr, mem (addr + 8), mem (addr + 16), mem (addr + 24)⟩

/-- Reference left-to-right scalar sum: `sumRange mem off k` is
`mem off + mem (off+8) + ... + mem (off + 8*(k-1))`, accumulated strictly
left to right (the `double sum = 0; for (...) sum += ...;` pattern). -/
def sumRange (mem : ℕ → ℚ) (off : ℕ) : ℕ → ℚ
  | 0 => 0
  | k + 1 => sumRange mem off k + mem (off + 8 * k)

/-- Number of iterations of the vectorised loop
`for (; i + 3 < size; i += 4)` (src/main.cpp:81,106): the loop runs for
`i = 0, 4, ..., 4*(size/4 - 1)`, i.e. `size / 4` times. -/
def numChunks (size : ℕ) : ℕ := size / 4

/-- The vector accumulator `sum_vec` after the first `c` iterations of the
vectorised loop, reading from byte offset `off`:
`sum_vec = add(sum_vec, load(ptr + i))` with `i = 4*k` on iteration `k`. -/
def vecAcc (mem : ℕ → ℚ) (off : ℕ) : ℕ → Vec4
  | 0 => vzero
  | c + 1 => vadd (vecAcc mem off c) (vload mem (off + 8 * (4 * c)))

/-- The horizontal-reduction tail of both kernels: starting from the scalar
remainder `s`, add `result[0], result[1], result[2], result[3]` in order
(src/main.cpp:87-89,112-114). -/
def hsumAfter (s : ℚ) (v : Vec4) : ℚ := s + v.l0 + v.l1 + v.l2 + v.l3

/-- Lane sum of a vector accumulator (value of the `for (j) sum += result[j]`
reduction started from zero). -/
def hsum (v : Vec4) : ℚ := v.l0 + v.l1 + v.l2 + v.l3

/-- One repeat of either kernel body over `size` elements starting at byte
offset `off`: vectorised loop over the full 4-element chunks, scalar
left-to-right loop over the remainder, then horizontal reduction added to
the scalar remainder (src/main.cpp:79-90 and 104-115). -/
def sumOnce (mem : ℕ → ℚ) (off size : ℕ) : ℚ :=
  hsumAfter
    (sumRange mem (off + 8 * (4 * numChunks size)) (size - 4 * numChunks size))
    (vecAcc mem off (numChunks size))

/-- `total_sum` after `r` iterations of the outer `for (int r = 0; ...)`
repeat loop, each adding the same per-repeat sum `x`. -/
def repeatTotal (x : ℚ) : ℕ → ℚ
  | 0 => 0
  | r + 1 => repeatTotal x r + x

/-- `sum_aligned(size, container, repeats)` (src/main.cpp:76-93): runs the
kernel body `repeats` times from byte offset 0 and returns
`total_sum / repeats`.  The call in `main` uses the default `repeats = 10`. -/
def sum_aligned (mem : ℕ → ℚ) (size rep : ℕ) : ℚ :=
  repeatTotal (sumOnce mem 0 size) rep / (rep : ℚ)

/-- `adjusted_size = size - (byte_offset / sizeof(double))`
(src/main.cpp:102).  The C++ subtraction is on `size_t`; for every
configuration the harness lets through, `byte_offset / 8 ≤ size`, where the
truncated `ℕ` subtraction used here coincides with it. -/
def adjustedSize (size off : ℕ) : ℕ := size - off / 8

/-- `sum_misaligned(size, container, byte_offset, repeats)`
(src/main.cpp:97-118): identical kernel body run from the byte address
`base + byte_offset` over `adjusted_size` elements, repeated `repeats`
times (default 10 in the call in `main`), returning `total_sum / repeats`. -/
def sum_misaligned (mem : ℕ → ℚ) (size off rep : ℕ) : ℚ :=
  repeatTotal (sumOnce mem off (adjustedSize size off)) rep / (rep : ℚ)

/-- Byte address of the last byte the misaligned kernel reads: its highest
access is element `adjusted_size - 1` of the offset view, whose last byte is
`byte_offset + 8 * adjusted_size - 1` relative to `container.data()`. -/
def lastByteRead (size off : ℕ) : ℕ := off + 8 * adjustedSize size off - 1

/-- `process_args` (src/main.cpp:19-30): each argument of `--size`,
`--offset`, `--iterations` is `some` parsed value when present.  If any is
absent the function warns and returns the fallback tuple
`{1000000, 5, 100}` (src/main.cpp:27); otherwise the three parsed values. -/
def process_args : Option ℤ → Option ℤ → Option ℤ → ℤ × ℤ × ℤ
  | some s, some o, some i => (s, o, i)
  | _, _, _ => (1000000, 5, 100)

/-- The defaults the warning message at src/main.cpp:26 announces:
"using defaults: size=1000000, offset=4, iterations=100". -/
def announcedDefaults : ℤ × ℤ × ℤ := (1000000, 4, 100)

/-- The C++ `int → size_t` conversion applied to `offset` by the comparison
`offset >= size * sizeof(double)` (src/main.cpp:134): reduction mod 2^64. -/
def usizeOfInt (o : ℤ) : ℕ := (o % (2 : ℤ) ^ 64).toNat

/-- `size * sizeof(double)` computed in `size_t` (src/main.cpp:134). -/
def bufferBytes (size : ℕ) : ℕ := 8 * size % 2 ^ 64

/-- The offset check and clamp at src/main.cpp:134-137: if
`offset >= size * sizeof(double)` (an unsigned comparison), the offset is
replaced by 4 after printing a warning; otherwise kept. -/
def clampOffset (size : ℕ) (o : ℤ) : ℤ :=
  if bufferBytes size ≤ usizeOfInt o then 4 else o

/-- Outcome of `main` relevant to configuration handling: the byte offset
actually used after the clamp, and the exit code, which is unconditionally
`0` (src/main.cpp:191). -/
def mainOutcome (size : ℕ) (o : ℤ) : ℤ × ℕ := (clampOffset size o, 0)

/-- The buffer-filling loop `for (auto& val : data) val = random_double(0.0,
10000.0);` (src/main.cpp:141-144, 161-164).  `random_double` draws from a
`uniform_real_distribution` over the `static std::mt19937 gen`
(src/main.cpp:12-16); both are deterministic functions of the generator
state, abstracted here as a step `rd` on a state type `σ`.  Returns the
filled buffer contents and the final generator state. -/
def fillBuffer {σ : Type} (rd : σ → ℚ × σ) : σ → ℕ → List ℚ × σ
  | s, 0 => ([], s)
  | s, n + 1 =>
    let p := rd s
    let rest := fillBuffer rd p.2 n
    (p.1 :: rest.1, rest.2)

/-- `misaligned_time_avg` / `aligned_time_avg` (src/main.cpp:156,176): the
accumulated per-iteration latencies divided by the iteration count. -/
def avgLatency (ts : List ℚ) : ℚ :=
  ts.foldl (fun a t => a + t) 0 / (ts.length : ℚ)

/-- The reported metric `speedup = aligned_time_avg / misaligned_time_avg`
(src/main.cpp:188). -/
def speedup (alignedTs misalignedTs : List ℚ) : ℚ :=
  avgLatency alignedTs / avgLatency misalignedTs

/-- Observable memory-and-timing events of one run of `main`, in program
order.  There is no flush event constructor use anywhere in `mainTrace`
because `main` contains no cache flush or eviction code at all. -/
inductive Event where
  | fill
  | warmUp
  | timedMisaligned
  | timedAligned
  | flush
  | report
  deriving DecidableEq

/-- `true` exactly on the two timed kernel blocks. -/
def isTimedBlock : Event → Bool
  | .timedMisaligned => true
  | .timedAligned => true
  | _ => false

/-- `true` on a cache flush/eviction event. -/
def isFlush : Event → Bool
  | .flush => true
  | _ => false

/-- `true` on a warm-up pass. -/
def isWarmUp : Event → Bool
  | .warmUp => true
  | _ => false

/-- `precededOK p prev tr` holds when, scanning `tr` with `prev` the event
immediately before its head, every timed block is immediately preceded by an
event satisfying `p`. -/
def precededOK (p : Event → Bool) : Option Event → List Event → Bool
  | _, [] => true
  | prev, e :: rest =>
    ((!isTimedBlock e) || (match prev with | some q => p q | none => false))
      && precededOK p (some e) rest

/-- Every timed block in the trace is immediately preceded by a flush. -/
def flushBeforeTimed (tr : List Event) : Bool := precededOK isFlush none tr

/-- Every timed block in the trace is immediately preceded by a warm-up. -/
def warmBeforeTimed (tr : List Event) : Bool := precededOK isWarmUp none tr

/-- The event trace of `main` (src/main.cpp:132-192): fill the misaligned
buffer (141-144), two warm-up passes (145-146), the misaligned timed block
(149-155), its report (157), then fill the aligned buffer (161-164), two
warm-up passes (165-166), the aligned timed block (169-175) and the final
reports (177-189). -/
def mainTrace : List Event :=
  [.fill, .warmUp, .warmUp, .timedMisaligned, .report,
   .fill, .warmUp, .warmUp, .timedAligned, .report]

/-- Concrete buffer memory used as a counterexample: element 0 is `1.0`,
every other 8-byte load reads `0`. -/
def mem1 : ℕ → ℚ := fun a => if a = 0 then 1 else 0

/-- A concrete deterministic random step on state `ℕ`, used to instantiate
the determinism theorem. -/
def rd0 : ℕ → ℚ × ℕ := fun s => ((s : ℚ), s + 1)

/-- Splitting a left-to-right sum: the first `a` elements plus the next `b`
elements give the first `a + b` elements. -/
theorem sumRange_add (mem : ℕ → ℚ) (off a b : ℕ) :
    sumRange mem off a + sumRange mem (off + 8 * a) b = sumRange mem off (a + b) := by
  induction b with
  | zero => simp [sumRange]
  | succ b ih =>
    have hn : a + (b + 1) = (a + b) + 1 := by ring
    rw [hn]
    simp only [sumRange]
    rw [← ih]
    have h : off + 8 * a + 8 * b = off + 8 * (a + b) := by ring
    rw [h]
    ring

/-- Lane sums add under `_mm256_add_pd`. -/
theorem hsum_vadd (a b : Vec4) : hsum (vadd a b) = hsum a + hsum b := by
  simp [hsum, vadd]; ring

/-- The lane sum of the vector accumulator after `c` chunks equals the
left-to-right sum of the `4 * c` elements those chunks covered. -/
theorem hsum_vecAcc (mem : ℕ → ℚ) (off : ℕ) (c : ℕ) :
    hsum (vecAcc mem off c) = sumRange mem off (4 * c) := by
  induction c with
  | zero => simp [vecAcc, vzero, hsum, sumRange]
  | succ c ih =>
    have h4 : 4 * (c + 1) = 4 * c + 1 + 1 + 1 + 1 := by ring
    rw [h4]
    simp only [vecAcc, hsum_vadd, ih, sumRange]
    simp only [hsum, vload]
    ring_nf

/-- One repeat of the kernel body computes exactly the left-to-right scalar
sum of the `size` elements starting at byte offset `off`: over exact
arithmetic, the lane-then-horizontal-then-remainder order is a
reassociation of the reference sum. -/
theorem sumOnce_eq (mem : ℕ → ℚ) (off size : ℕ) :
    sumOnce mem off size = sumRange mem off size := by
  have h4 : 4 * numChunks size ≤ size := by
    have := Nat.div_mul_le_self size 4
    simpa [numChunks, Nat.mul_comm] using this
  have hsplit := sumRange_add mem off (4 * numChunks size) (size - 4 * numChunks size)
  rw [Nat.add_sub_cancel' h4] at hsplit
  calc sumOnce mem off size
      = sumRange mem (off + 8 * (4 * numChunks size)) (size - 4 * numChunks size)
          + hsum (vecAcc mem off (numChunks size)) := by
        simp only [sumOnce, hsumAfter, hsum]; ring
    _ = sumRange mem off size := by
        rw [hsum_vecAcc, add_comm, hsplit]

/-- `total_sum` after `r` repeats of the same per-repeat sum is `r * x`. -/
theorem repeatTotal_eq (x : ℚ) (r : ℕ) : repeatTotal x r = (r : ℚ) * x := by
  induction r with
  | zero => simp [repeatTotal]
  | succ r ih => simp [repeatTotal, ih]; ring

/-- For any positive repeat count, `sum_aligned` returns exactly the
left-to-right scalar sum of the buffer's `size` elements. -/
theorem sum_aligned_eq (mem : ℕ → ℚ) (size rep : ℕ) (h : rep ≠ 0) :
    sum_aligned mem size rep = sumRange mem 0 size := by
  have hr : (rep : ℚ) ≠ 0 := Nat.cast_ne_zero.mpr h
  rw [sum_aligned, repeatTotal_eq, mul_div_cancel_left₀ _ hr, sumOnce_eq]

/-- For any positive repeat count, `sum_misaligned` returns exactly the
left-to-right scalar sum of the `adjusted_size` elements starting at byte
offset `off`. -/
theorem sum_misaligned_eq (mem : ℕ → ℚ) (size off rep : ℕ) (h : rep ≠ 0) :
    sum_misaligned mem size off rep = sumRange mem off (adjustedSize size off) := by
  have hr : (rep : ℚ) ≠ 0 := Nat.cast_ne_zero.mpr h
  rw [sum_misaligned, repeatTotal_eq, mul_div_cancel_left₀ _ hr, sumOnce_eq]

/-- Folding `+` over a list from an accumulator is the accumulator plus the
list's sum. -/
theorem foldl_add_eq (l : List ℚ) (a : ℚ) :
    l.foldl (fun x y => x + y) a = a + l.sum := by
  induction l generalizing a with
  | nil => simp
  | cons x xs ih => simp [List.foldl, ih, List.sum_cons]; ring

/-- Claim C1, counterexample: on the buffer with element 0 equal to 1 and
element 1 equal to 0, with `size = 2` and `byte_offset = 8`,
`sum_misaligned` returns 0 while the reference left-to-right scalar sum of
the two elements is 1 — far outside the claimed relative tolerance of
`1e-9` per summed element.  The misaligned kernel sums the shifted view, not
the original element sequence. -/
theorem misaligned_sum_diverges_from_reference :
    ¬ |sum_misaligned mem1 2 8 10 - sumRange mem1 0 2|
        ≤ (2 : ℚ) * (1 / 10 ^ 9) * |sumRange mem1 0 2| := by
  have h1 : sum_misaligned mem1 2 8 10 = sumRange mem1 8 (adjustedSize 2 8) :=
    sum_misaligned_eq mem1 2 8 10 (by norm_num)
  have h2 : adjustedSize 2 8 = 1 := by norm_num [adjustedSize]
  rw [h1, h2]
  norm_num [sumRange, mem1]

/-- Claim C1, amended: for every buffer, element count and byte offset, and
any positive repeat count, `sum_aligned` equals the reference left-to-right
scalar sum of the `size` elements exactly (so in particular within the
claimed tolerance, and for every count from 0 to `3 * vectorWidth - 1`),
while `sum_misaligned` equals the reference left-to-right scalar sum of the
`adjusted_size` elements of the shifted view it actually reads — not of the
original element sequence. -/
theorem kernels_sum_exact (mem : ℕ → ℚ) (size off rep : ℕ) (h : rep ≠ 0) :
    sum_aligned mem size rep = sumRange mem 0 size ∧
    sum_misaligned mem size off rep = sumRange mem off (adjustedSize size off) ∧
    (∀ k, k < 3 * vectorWidth → sum_aligned mem k rep = sumRange mem 0 k) :=
  ⟨sum_aligned_eq mem size rep h, sum_misaligned_eq mem size off rep h,
    fun k _ => sum_aligned_eq mem k rep h⟩

/-- Claim C1, witness for the amended theorem at `size = 2`, `off = 8`,
`rep = 10`. -/
theorem kernels_sum_exact_witness :
    (10 : ℕ) ≠ 0 ∧
      (sum_aligned mem1 2 10 = sumRange mem1 0 2 ∧
       sum_misaligned mem1 2 8 10 = sumRange mem1 8 (adjustedSize 2 8) ∧
       (∀ k, k < 3 * vectorWidth → sum_aligned mem1 k 10 = sumRange mem1 0 k)) :=
  ⟨by norm_num, kernels_sum_exact mem1 2 8 10 (by norm_num)⟩

/-- Claim C2: the aligned-path buffer is allocated by
`_mm_malloc(n * sizeof(T), 8)` with only 8-byte alignment, which is a power
of two but strictly below the 32-byte width of a `__m256d` register; byte
address 8 satisfies everything the allocator guarantees yet is not
vector-width aligned, so the `_mm256_load_pd` in `sum_aligned` is not
protected against faulting, contrary to the claim. -/
theorem aligned_alloc_alignment_below_vector_width :
    alignedAllocAlignment < vectorWidthBytes ∧
    8 % alignedAllocAlignment = 0 ∧ 8 % vectorWidthBytes ≠ 0 := by decide

/-- Claim C3, counterexample: for `element_count = 2`, `byte_offset = 4`,
the claimed usable-element formula `element_count - ceil(byte_offset / 8)`
gives 1, but the code's `adjusted_size = size - byte_offset / 8` uses
truncating (floor) division and exposes 2 elements. -/
theorem adjusted_size_uses_floor_not_ceil :
    adjustedSize 2 4 = 2 ∧ (2 : ℕ) - (4 + 7) / 8 = 1 ∧
    adjustedSize 2 4 ≠ 2 - (4 + 7) / 8 := by decide

/-- Claim C3, amended: for every valid pair with
`byte_offset < element_count * 8`, the misaligned view exposes
`element_count - floor(byte_offset / 8)` usable elements (floor, not ceil),
and the last byte `sum_misaligned` reads still stays strictly within the
allocated region because `MisalignedAllocator` over-allocates 8 slack
bytes. -/
theorem misaligned_reads_within_allocation (size off : ℕ) (h : off < 8 * size) :
    adjustedSize size off = size - off / 8 ∧
    lastByteRead size off < allocatedBytes size := by
  refine ⟨rfl, ?_⟩
  simp only [lastByteRead, allocatedBytes, adjustedSize]
  omega

/-- Claim C3, witness at `size = 2`, `off = 4`. -/
theorem misaligned_reads_within_allocation_witness :
    4 < 8 * 2 ∧
      (adjustedSize 2 4 = 2 - 4 / 8 ∧ lastByteRead 2 4 < allocatedBytes 2) :=
  ⟨by norm_num, misaligned_reads_within_allocation 2 4 (by norm_num)⟩

/-- Claim C4, counterexample: with a single aligned latency of 1 ns and a
single misaligned latency of 2 ns, the code's reported metric is
`aligned_mean / misaligned_mean = 1/2`, not the claimed
`misaligned_mean / aligned_mean = 2`. -/
theorem speedup_not_misaligned_over_aligned :
    speedup [1] [2] = 1 / 2 ∧ avgLatency [2] / avgLatency [1] = 2 ∧
    speedup [1] [2] ≠ avgLatency [2] / avgLatency [1] := by
  norm_num [speedup, avgLatency]

/-- Claim C4, amended: the derived speedup metric equals the mean aligned
latency divided by the mean misaligned latency (the reciprocal of the
claimed ratio), each mean being the arithmetic mean — sum of the
per-iteration latencies divided by their count. -/
theorem speedup_is_aligned_over_misaligned_mean (a m : List ℚ) :
    speedup a m = (a.sum / (a.length : ℚ)) / (m.sum / (m.length : ℚ)) := by
  simp [speedup, avgLatency, foldl_add_eq]

/-- Claim C5: when any of `--size`, `--offset`, `--iterations` is absent,
`process_args` does return a fallback without aborting, but the fallback
tuple is `(1000000, 5, 100)`: its offset component is 5, contradicting the
code's own warning message (and the claim), which announce
`size=1000000, offset=4, iterations=100`. -/
theorem process_args_default_offset_five :
    process_args none (some 4) (some 100) = (1000000, 5, 100) ∧
    process_args none none none = (1000000, 5, 100) ∧
    (process_args none none none).2.1 ≠ announcedDefaults.2.1 := by decide

/-- Claim C6: whenever the configured offset is at least the buffer's byte
length (under the code's unsigned comparison), `main` clamps the offset to
4, which for any non-empty buffer is strictly inside the addressable byte
range, and still finishes with exit code 0. -/
theorem invalid_offset_clamped_run_completes (size : ℕ) (o : ℤ)
    (hsz : 1 ≤ size) (h : bufferBytes size ≤ usizeOfInt o) :
    clampOffset size o = 4 ∧ usizeOfInt (clampOffset size o) < 8 * size ∧
    (mainOutcome size o).2 = 0 := by
  have hc : clampOffset size o = 4 := by simp [clampOffset, h]
  refine ⟨hc, ?_, rfl⟩
  rw [hc]
  have h4 : usizeOfInt 4 = 4 := by decide
  rw [h4]
  omega

/-- Claim C6, witness at the spec's scenario `size = 10`, `offset = 1000`. -/
theorem invalid_offset_clamped_run_completes_witness :
    (1 ≤ 10 ∧ bufferBytes 10 ≤ usizeOfInt 1000) ∧
      (clampOffset 10 1000 = 4 ∧ usizeOfInt (clampOffset 10 1000) < 8 * 10 ∧
       (mainOutcome 10 1000).2 = 0) :=
  ⟨⟨by norm_num, by decide⟩,
    invalid_offset_clamped_run_completes 10 1000 (by norm_num) (by decide)⟩

/-- Claim C7: buffer filling is deterministic with respect to its random
source — two fills of the same length driven by the same deterministic
random step from equal generator states produce identical contents (and
equal final states); nothing besides the step, the state and the length
influences the values. -/
theorem fill_deterministic_in_rng_state {σ : Type} (rd : σ → ℚ × σ)
    (s₁ s₂ : σ) (n₁ n₂ : ℕ) (hs : s₁ = s₂) (hn : n₁ = n₂) :
    fillBuffer rd s₁ n₁ = fillBuffer rd s₂ n₂ := by
  subst hs
  subst hn
  rfl

/-- Claim C7, witness with a concrete step on state `ℕ`, state 0 and
length 3. -/
theorem fill_deterministic_in_rng_state_witness :
    (0 : ℕ) = 0 ∧ (3 : ℕ) = 3 ∧ fillBuffer rd0 0 3 = fillBuffer rd0 0 3 :=
  ⟨rfl, rfl, fill_deterministic_in_rng_state rd0 0 0 3 3 rfl rfl⟩

/-- Claim C8: with zero elements both kernels return exactly 0 (for the
misaligned kernel at the only offset the harness lets through for
`size = 0`, namely the clamped offset 4), and for any element count below
the vector width the vectorised loop runs zero times, so the vector
accumulator stays `vzero` and the kernel body is exactly the scalar
left-to-right sum. -/
theorem zero_and_subwidth_counts_scalar_path (mem : ℕ → ℚ) (off size rep : ℕ)
    (h : size < vectorWidth) :
    sum_aligned mem 0 rep = 0 ∧ sum_misaligned mem 0 4 rep = 0 ∧
    numChunks size = 0 ∧ vecAcc mem off (numChunks size) = vzero ∧
    sumOnce mem off size = sumRange mem off size := by
  have h0 : ∀ o, sumOnce mem o 0 = 0 := by
    intro o
    simp [sumOnce, numChunks, hsumAfter, vecAcc, vzero, sumRange]
  have hch : numChunks size = 0 := by
    have h4 : size < 4 := by simpa [vectorWidth] using h
    simp [numChunks, Nat.div_eq_of_lt h4]
  refine ⟨?_, ?_, hch, ?_, sumOnce_eq mem off size⟩
  · simp [sum_aligned, h0, repeatTotal_eq]
  · simp [sum_misaligned, adjustedSize, h0, repeatTotal_eq]
  · rw [hch]
    rfl

/-- Claim C8, witness at `size = 2`, `off = 4`, `rep = 10`. -/
theorem zero_and_subwidth_counts_scalar_path_witness :
    2 < vectorWidth ∧
      (sum_aligned mem1 0 10 = 0 ∧ sum_misaligned mem1 0 4 10 = 0 ∧
       numChunks 2 = 0 ∧ vecAcc mem1 4 (numChunks 2) = vzero ∧
       sumOnce mem1 4 2 = sumRange mem1 4 2) :=
  ⟨by decide, zero_and_subwidth_counts_scalar_path mem1 4 2 10 (by decide)⟩

/-- Claim C9, counterexample: in the trace of `main` the timed blocks are
not immediately preceded by a cache flush or eviction — `main` performs no
flush at all, so the claimed flush-before-each-timed-block discipline fails
on the program's actual event order. -/
theorem no_flush_before_timed_blocks : flushBeforeTimed mainTrace = false := by
  decide

/-- Claim C9, amended: no cache flush or eviction occurs anywhere in a run;
instead each timed block is immediately preceded by warm-up passes over the
measured buffer, so every timed kernel invocation begins with the data
cache-warm rather than cold. -/
theorem warmup_precedes_timed_blocks :
    Event.flush ∉ mainTrace ∧ warmBeforeTimed mainTrace = true := by decide

/-- Claim C10: with byte offset 0 the misaligned kernel computes exactly the
same value as the aligned kernel on the same buffer, element count and
repeat count: the adjusted element count equals the full count and the two
kernel bodies perform the identical sequence of lane additions, horizontal
reduction and scalar tail additions, differing only in the load intrinsic
used. -/
theorem offset_zero_misaligned_equals_aligned (mem : ℕ → ℚ) (size rep : ℕ) :
    sum_misaligned mem size 0 rep = sum_aligned mem size rep := by
  simp [sum_misaligned, sum_aligned, adjustedSize]

end AVUMA
